import Mathlib

/-!
Shallow embedding of the socialscan query engine
(src/socialscan/platforms.py, src/socialscan/util.py, src/socialscan/cli.py)
used to settle the specification claims about dispatch, response
classification, the token cache and the batch orchestrator.
-/

set_option maxRecDepth 4000

namespace Socialscan

/-! ## Data model: platforms and responses (platforms.py, lines 657-688) -/

/-- The closed enum of supported platforms (platforms.py, class Platforms,
lines 657-670), in source declaration order. -/
inductive Platforms
  | GITHUB
  | GITLAB
  | INSTAGRAM
  | LASTFM
  | PASTEBIN
  | PINTEREST
  | REDDIT
  | SNAPCHAT
  | SPOTIFY
  | TWITTER
  | TUMBLR
  | YAHOO
  | FIREFOX
deriving DecidableEq

/-- All platforms in enum declaration order, as `list(Platforms)` yields. -/
def all_platforms : List Platforms :=
  [.GITHUB, .GITLAB, .INSTAGRAM, .LASTFM, .PASTEBIN, .PINTEREST, .REDDIT,
   .SNAPCHAT, .SPOTIFY, .TWITTER, .TUMBLR, .YAHOO, .FIREFOX]

/-- The frozen dataclass PlatformResponse (platforms.py, lines 679-688).
The Python field `link: str` holds either a string or None, modelled as
`Option String`.  Note the dataclass gives `link` no default value, so a
construction call must supply it. -/
structure PlatformResponse where
  platform : Platforms
  query : String
  available : Bool
  valid : Bool
  success : Bool
  message : String
  link : Option String
deriving DecidableEq

/-- Which of the three optional capabilities each concrete checker class
defines (used by the hasattr tests in util.py lines 16, 30 and 35).
Tabulated from the class bodies in platforms.py. -/
structure PlatformCaps where
  has_check_username : Bool
  has_check_email : Bool
  has_prerequest : Bool
deriving DecidableEq

/-- The capability table of the thirteen concrete checker classes in
platforms.py (fields: check_username, check_email, prerequest). -/
def capsOf : Platforms → PlatformCaps
  | .GITHUB => ⟨true, true, true⟩
  | .GITLAB => ⟨true, false, false⟩
  | .INSTAGRAM => ⟨true, true, true⟩
  | .LASTFM => ⟨true, true, true⟩
  | .PASTEBIN => ⟨true, true, false⟩
  | .PINTEREST => ⟨false, true, false⟩
  | .REDDIT => ⟨true, false, false⟩
  | .SNAPCHAT => ⟨true, false, true⟩
  | .SPOTIFY => ⟨false, true, false⟩
  | .TWITTER => ⟨true, true, false⟩
  | .TUMBLR => ⟨true, true, true⟩
  | .YAHOO => ⟨true, false, true⟩
  | .FIREFOX => ⟨false, true, false⟩

/-! ## The email regular expression (util.py, line 12)

`EMAIL_REGEX = ^[a-zA-Z0-9.!#$%&’*+/=?^_\x60\x7b|\x7d~-]+@[a-zA-Z0-9]
(?:[a-zA-Z0-9-]\x7b0,253\x7d[a-zA-Z0-9])?(?:\.[a-zA-Z0-9]
(?:[a-zA-Z0-9-]\x7b0,253\x7d[a-zA-Z0-9])?)+$`

The local part is one or more characters from a fixed class (which does not
contain the at sign), the domain part is two or more dot-separated labels,
each starting and ending with an alphanumeric character with up to 253
characters of alphanumerics and hyphens in between.  Since neither side can
contain the at sign and labels cannot contain dots, the regex match is
equivalent to splitting on the at sign and on dots, which is how it is
modelled.  A Python dollar anchor also matches just before one trailing
newline, which the model reproduces. -/

/-- Character class of the local part of EMAIL_REGEX: alphanumerics plus
the specials `.!#$%&’*+/=?^_\x60\x7b|\x7d~-` (the apostrophe-like character
is U+2019 and the three bracket-like ones are U+0060, U+007B, U+007D). -/
def isLocalChar (c : Char) : Bool :=
  c.isAlphanum ||
    ['.', '!', '#', '$', '%', '&', Char.ofNat 0x2019, '*', '+', '/', '=',
     '?', '^', '_', Char.ofNat 0x60, Char.ofNat 0x7b, '|', Char.ofNat 0x7d,
     '~', '-'].contains c

/-- Characters allowed strictly inside a domain label: `[a-zA-Z0-9-]`. -/
def isLabelChar (c : Char) : Bool :=
  c.isAlphanum || c == '-'

/-- One domain label `[a-zA-Z0-9](?:[a-zA-Z0-9-]\x7b0,253\x7d[a-zA-Z0-9])?`:
a single alphanumeric, or 2 to 255 characters starting and ending
alphanumeric with `[a-zA-Z0-9-]` in between. -/
def validLabel : List Char → Bool
  | [] => false
  | [c] => c.isAlphanum
  | c :: rest =>
    c.isAlphanum && rest.length ≤ 254 && rest.dropLast.all isLabelChar &&
      (match rest.getLast? with
       | some d => d.isAlphanum
       | none => false)

/-- Split a character list on every occurrence of a separator character
(the result always has one more element than the number of separators). -/
def splitOnChar (sep : Char) : List Char → List (List Char)
  | [] => [[]]
  | c :: cs =>
    let r := splitOnChar sep cs
    if c == sep then [] :: r
    else
      match r with
      | [] => [[c]]
      | h :: t => (c :: h) :: t

/-- Match of the anchored EMAIL_REGEX body against a character list:
`local@label(.label)+` with a nonempty local part over `isLocalChar`. -/
def isEmailChars (cs : List Char) : Bool :=
  match splitOnChar '@' cs with
  | [loc, dom] =>
    (!loc.isEmpty) && loc.all isLocalChar &&
      (match splitOnChar '.' dom with
       | [] => false
       | [_] => false
       | labels => labels.all validLabel)
  | _ => false

/-- The test `EMAIL_REGEX.match(query_)` of util.py line 29 viewed as a
boolean: anchored match of the whole string, where the Python dollar anchor
also accepts one trailing newline. -/
def EMAIL_REGEX_match (q : String) : Bool :=
  let cs := q.toList
  let cs :=
    match cs.getLast? with
    | some c => if c == '\n' then cs.dropLast else cs
    | none => cs
  isEmailChars cs

/-! ## Response helper constructors (platforms.py, lines 54-102)

The five `response_*` methods of PlatformChecker.  `self` only contributes
the platform tag `Platforms(self.__class__)`, modelled as an explicit
argument.  Every helper passes all seven dataclass fields, including
`link`, so these constructions always succeed. -/

/-- PlatformChecker.response_failure (platforms.py, lines 54-63). -/
def response_failure (p : Platforms) (q : String) (message : String) :
    PlatformResponse :=
  ⟨p, q, false, false, false, message, none⟩

/-- PlatformChecker.response_available (platforms.py, lines 65-74). -/
def response_available (p : Platforms) (q : String) (message : String) :
    PlatformResponse :=
  ⟨p, q, true, true, true, message, none⟩

/-- PlatformChecker.response_unavailable (platforms.py, lines 76-85). -/
def response_unavailable (p : Platforms) (q : String) (message : String)
    (link : Option String) : PlatformResponse :=
  ⟨p, q, false, true, true, message, link⟩

/-- PlatformChecker.response_invalid (platforms.py, lines 87-96). -/
def response_invalid (p : Platforms) (q : String) (message : String) :
    PlatformResponse :=
  ⟨p, q, false, false, true, message, none⟩

/-- The Python substring test `x in message` on strings: the code points of
`x` form a contiguous infix of the code points of `message`. -/
def substrContains (message x : String) : Bool :=
  decide (x.toList <:+: message.toList)

/-- PlatformChecker.response_unavailable_or_invalid (platforms.py, lines
98-102): Unavailable if `message` contains any of `unavailable_messages`
as a substring, else Invalid (the link is only passed along in the
Unavailable branch). -/
def response_unavailable_or_invalid (p : Platforms) (q : String)
    (message : String) (unavailable_messages : List String)
    (link : Option String) : PlatformResponse :=
  if unavailable_messages.any (fun x => substrContains message x) then
    response_unavailable p q message link
  else
    response_invalid p q message

/-- One invocation of a PlatformChecker response helper, with its
arguments: the only ways any checker in platforms.py constructs a
PlatformResponse. -/
inductive RespCtor
  | failure (p : Platforms) (q message : String)
  | available (p : Platforms) (q message : String)
  | unavailable (p : Platforms) (q message : String) (link : Option String)
  | invalid (p : Platforms) (q message : String)
  | unavailableOrInvalid (p : Platforms) (q message : String)
      (unavailable_messages : List String) (link : Option String)

/-- Evaluate a helper invocation to the PlatformResponse it constructs. -/
def mkResp : RespCtor → PlatformResponse
  | .failure p q m => response_failure p q m
  | .available p q m => response_available p q m
  | .unavailable p q m link => response_unavailable p q m link
  | .invalid p q m => response_invalid p q m
  | .unavailableOrInvalid p q m msgs link =>
      response_unavailable_or_invalid p q m msgs link

/-- The Response invariants of the spec: a failed probe carries no verdict,
an invalid identifier is never available, and the (available, valid,
success) triple is one of the four classes available, unavailable, invalid,
failed (the four triples are pairwise distinct, so a response belongs to
exactly one class). -/
def respInvariant (r : PlatformResponse) : Prop :=
  (r.success = false → r.available = false ∧ r.valid = false) ∧
  (r.valid = false → r.available = false) ∧
  ((r.available, r.valid, r.success) = (true, true, true) ∨
   (r.available, r.valid, r.success) = (false, true, true) ∨
   (r.available, r.valid, r.success) = (false, false, true) ∨
   (r.available, r.valid, r.success) = (false, false, false))

/-! ## Dispatcher (util.py, lines 27-46)

Python exceptions are modelled explicitly: the dispatcher's try block
catches `aiohttp.ClientError`, `KeyError` and `QueryError`; anything else
propagates.  The except handler constructs a PlatformResponse passing six
of the seven required dataclass fields — `link` is omitted (util.py lines
41-46), while the dataclass (platforms.py line 687) declares `link: str`
with no default, so the construction itself raises a TypeError. -/

/-- Python exceptions relevant to the dispatcher.  `clientError` carries
the concrete aiohttp subclass name rendered by `type(e).__name__`. -/
inductive PyExn
  | clientError (name detail : String)
  | keyError (detail : String)
  | queryError (detail : String)
  | typeError (detail : String)
deriving DecidableEq

/-- `type(e).__name__` of a modelled exception. -/
def pyExnName : PyExn → String
  | .clientError n _ => n
  | .keyError _ => "KeyError"
  | .queryError _ => "QueryError"
  | .typeError _ => "TypeError"

/-- `str(e)` of a modelled exception. -/
def pyExnDetail : PyExn → String
  | .clientError _ d => d
  | .keyError d => d
  | .queryError d => d
  | .typeError d => d

/-- Membership in the dispatcher's except clause
`except (aiohttp.ClientError, KeyError, QueryError)` (util.py line 40). -/
def isCaught : PyExn → Bool
  | .clientError _ _ => true
  | .keyError _ => true
  | .queryError _ => true
  | .typeError _ => false

/-- Outcome of awaiting the invoked checker capability: a normal return
(of a PlatformResponse or of None) or a raised exception. -/
inductive CheckOutcome
  | ret (r : Option PlatformResponse)
  | exn (e : PyExn)
deriving DecidableEq

/-- Construction of the frozen dataclass PlatformResponse (platforms.py,
lines 679-688).  All seven fields are required; the `link` argument is
`none` when the call site does not supply it, in which case Python raises
a TypeError. -/
def buildPlatformResponse (p : Platforms) (q : String)
    (available valid success : Bool) (message : String)
    (link : Option (Option String)) : Except PyExn PlatformResponse :=
  match link with
  | none =>
      .error (.typeError
        "__init__() missing 1 required positional argument: 'link'")
  | some l => .ok ⟨p, q, available, valid, success, message, l⟩

/-- The dispatcher's except handler (util.py, lines 40-46): construct a
PlatformResponse with available=valid=success=False and message
`f"\x7btype(e).__name__\x7d - \x7be\x7d"`, omitting the `link` argument. -/
def handle_caught (p : Platforms) (q : String) (e : PyExn) :
    Except PyExn (Option PlatformResponse) :=
  (buildPlatformResponse p q false false false
      (pyExnName e ++ " - " ++ pyExnDetail e) none).map some

/-- Which capability the dispatcher invokes (util.py, lines 29-39): the
email regex decides the query's shape, then the first matching hasattr
branch wins; with no matching branch the dispatcher returns None. -/
inductive Route
  | email
  | username
  | unsupported
deriving DecidableEq

/-- The routing decision of util.py lines 29-39.  It depends only on the
query string and the platform's capability table. -/
def route (q : String) (caps : PlatformCaps) : Route :=
  if EMAIL_REGEX_match q && caps.has_check_email then .email
  else if !EMAIL_REGEX_match q && caps.has_check_username then .username
  else .unsupported

/-- The dispatcher coroutine `query(query_, platform, checkers)` (util.py,
lines 27-46).  `outcome` is the behaviour of the one invoked capability.
A None return from the capability raises
`QueryError("Error retrieving result")` inside the try block, which the
except clause catches; caught exceptions reach the handler, whose own
TypeError (missing `link`) propagates; uncaught exceptions propagate
directly. -/
def query (q : String) (p : Platforms) (caps : PlatformCaps)
    (outcome : CheckOutcome) : Except PyExn (Option PlatformResponse) :=
  match route q caps with
  | .unsupported => .ok none
  | _ =>
    match outcome with
    | .ret (some r) => .ok (some r)
    | .ret none => handle_caught p q (.queryError "Error retrieving result")
    | .exn e => if isCaught e then handle_caught p q e else .error e

/-- Equality of modelled Python call results is decidable (used to
evaluate the model on concrete inputs). -/
instance {ε α : Type} [DecidableEq ε] [DecidableEq α] :
    DecidableEq (Except ε α) := fun a b =>
  match a, b with
  | .error e, .error e' =>
    if h : e = e' then .isTrue (by rw [h]) else
      .isFalse (fun hc => h (Except.error.inj hc))
  | .ok v, .ok v' =>
    if h : v = v' then .isTrue (by rw [h]) else
      .isFalse (fun hc => h (Except.ok.inj hc))
  | .error _, .ok _ => .isFalse (fun hc => Except.noConfusion hc)
  | .ok _, .error _ => .isFalse (fun hc => Except.noConfusion hc)

/-! ## Orchestrator (util.py, lines 49-78) -/

/-- `asyncio.gather` over already-determined task outcomes: the ordered
list of results, or an error if any task raised (the model reports the
first raising task in submission order). -/
def gather :
    List (Except PyExn (Option PlatformResponse)) →
    Except PyExn (List (Option PlatformResponse))
  | [] => .ok []
  | .error e :: _ => .error e
  | .ok r :: ts =>
    match gather ts with
    | .error e => .error e
    | .ok rs => .ok (r :: rs)

/-- `execute_queries(queries, platforms, proxy_list)` (util.py, lines
49-64): one dispatcher task per (query, platform) pair of the full
cross-product, queries outermost, gathered in submission order, with None
results dropped.  `outcomeOf` gives each pair's capability behaviour. -/
def execute_queries (queries : List String) (platforms : List Platforms)
    (caps : Platforms → PlatformCaps)
    (outcomeOf : String → Platforms → CheckOutcome) :
    Except PyExn (List PlatformResponse) :=
  match gather (queries.flatMap
      (fun q => platforms.map (fun p => query q p (caps p) (outcomeOf q p)))) with
  | .error e => .error e
  | .ok results => .ok (results.filterMap id)

/-- `sync_execute_queries` (util.py, lines 67-78): the synchronous wrapper,
`asyncio.run(execute_queries(queries, platforms, proxy_list))`. -/
def sync_execute_queries (queries : List String)
    (platforms : List Platforms) (caps : Platforms → PlatformCaps)
    (outcomeOf : String → Platforms → CheckOutcome) :
    Except PyExn (List PlatformResponse) :=
  execute_queries queries platforms caps outcomeOf

/-! ## CLI configuration phase (cli.py, lines 151-184)

The part of `main()` that runs before the aiohttp session is opened (hence
before any network I/O): collecting queries from the command line and the
input file, rejecting an empty query list, deduplicating while preserving
first-occurrence order, and resolving platform names. -/

/-- Tail of `pyDedup`: drop the strings already seen, keep the rest in
order, remembering what has been kept. -/
def pyDedupAux (seen : List String) : List String → List String
  | [] => []
  | x :: xs =>
    if seen.contains x then pyDedupAux seen xs
    else x :: pyDedupAux (x :: seen) xs

/-- `list(dict.fromkeys(queries))` (cli.py, line 166): deduplicate keeping
the first occurrence of each string, preserving order. -/
def pyDedup (l : List String) : List String :=
  pyDedupAux [] l

/-- The uppercase member names of the Platforms enum
(`Platforms.__members__`). -/
def platform_members : List (String × Platforms) :=
  [("GITHUB", .GITHUB), ("GITLAB", .GITLAB), ("INSTAGRAM", .INSTAGRAM),
   ("LASTFM", .LASTFM), ("PASTEBIN", .PASTEBIN), ("PINTEREST", .PINTEREST),
   ("REDDIT", .REDDIT), ("SNAPCHAT", .SNAPCHAT), ("SPOTIFY", .SPOTIFY),
   ("TWITTER", .TWITTER), ("TUMBLR", .TUMBLR), ("YAHOO", .YAHOO),
   ("FIREFOX", .FIREFOX)]

/-- `p.upper()` of cli.py line 170 (the member names are pure ASCII, so
ASCII upper-casing decides the membership test). -/
def pyUpper (s : String) : String :=
  String.mk (s.toList.map Char.toUpper)

/-- `Platforms[p.upper()]` guarded by the membership test
(cli.py, lines 170-171). -/
def parse_platform (s : String) : Option Platforms :=
  platform_members.lookup (pyUpper s)

/-- The platform-name loop of cli.py lines 168-173: resolve each name in
order, raising `ValueError(p + " is not a valid platform")` at the first
unknown one. -/
def parse_platform_args : List String → Except String (List Platforms)
  | [] => .ok []
  | s :: rest =>
    match parse_platform s with
    | none => .error (s ++ " is not a valid platform")
    | some p =>
      match parse_platform_args rest with
      | .error e => .error e
      | .ok l => .ok (p :: l)

/-- The configuration phase of `main()` (cli.py, lines 159-175): queries
are the positional arguments plus the input-file lines (the input file
appends into the same list object `args.queries`, so the emptiness check on
line 164 sees the combined list); an empty combined list raises a
ValueError, then queries are deduplicated and platform names resolved
(an empty `--platforms` list falls back to all platforms, like None).
All of this happens before the aiohttp session is opened on line 186. -/
def cli_config (arg_queries input_lines platform_args : List String) :
    Except String (List String × List Platforms) :=
  let queries := arg_queries ++ input_lines
  if queries.isEmpty then
    .error "You must specify either at least one query or an input file"
  else
    let queries := pyDedup queries
    if platform_args.isEmpty then
      .ok (queries, all_platforms)
    else
      match parse_platform_args platform_args with
      | .error e => .error e
      | .ok ps => .ok (queries, ps)

/-! ## Token cache (platforms.py, lines 35-52 and 132-137)

`get_token` reads and writes the two instance fields set up in `__init__`:
`prerequest_sent = False` and `token = None`.  One call is modelled as a
function of the current state and of the behaviour the `prerequest()`
coroutine would have if invoked (a normal return of an optional token, or
a raised exception). -/

/-- The token-cache fields of a checker instance
(platforms.py, lines 136-137). -/
structure TokenState where
  prerequest_sent : Bool
  token : Option String
deriving DecidableEq

/-- The state `__init__` leaves behind: not yet requested, no token. -/
def initTokenState : TokenState := ⟨false, none⟩

/-- Behaviour of one would-be `prerequest()` invocation: normal return of
an optional token, or a raised exception. -/
inductive PrereqOutcome
  | ret (t : Option String)
  | raise

/-- Result of one `get_token` call: the returned token, the raised
`QueryError(TOKEN_ERROR_MESSAGE)`, or a propagated prerequest exception. -/
inductive GTResult
  | ok (t : String)
  | tokenError
  | prereqRaised
deriving DecidableEq

/-- What the already-resolved branch of `get_token` returns (platforms.py,
lines 43-46): raise the token error if the cached token is None, else
return the cached token. -/
def cachedResult (s : TokenState) : GTResult :=
  match s.token with
  | none => .tokenError
  | some t => .ok t

/-- One `get_token` call (platforms.py, lines 35-52): result, new state,
and whether `prerequest()` was invoked.  If `prerequest_sent` is already
true the cached outcome is replayed without invoking prerequest.
Otherwise prerequest is invoked: a raised exception propagates before
either field is assigned (the state is unchanged), while a normal return
`t` is stored (`token = t; prerequest_sent = True`) and then either
returned or, when None, converted to the token error. -/
def get_token (s : TokenState) (pr : PrereqOutcome) :
    GTResult × TokenState × Bool :=
  match s.prerequest_sent with
  | true => (cachedResult s, s, false)
  | false =>
    match pr with
    | .raise => (.prereqRaised, s, true)
    | .ret t => (cachedResult ⟨true, t⟩, ⟨true, t⟩, true)

/-- A sequence of `get_token` calls on one instance, the k-th call using
the k-th prerequest behaviour were it to invoke prerequest: the list of
results, the final state, and the total number of prerequest invocations. -/
def runCalls (s : TokenState) :
    List PrereqOutcome → List GTResult × TokenState × Nat
  | [] => ([], s, 0)
  | o :: os =>
    let step := get_token s o
    let rest := runCalls step.2.1 os
    (step.1 :: rest.1, rest.2.1, (if step.2.2 then 1 else 0) + rest.2.2)

/-! ## Concurrent first callers of get_token

asyncio is cooperative: a coroutine runs atomically between awaits.  A
`get_token` call has exactly one suspension point, the
`await self.prerequest()` on platforms.py line 48.  A first-time caller
therefore executes in two atomic slices:

  slice 1 (line 43): read `prerequest_sent`; if true, finish immediately
    from the cache (lines 44-46, no await); if false, start
    `prerequest()` and suspend at line 48;
  slice 2 (lines 48-52): resume with the fetched value, assign `token`
    and `prerequest_sent`, and finish.

Each task carries the value its own prerequest fetch would return
(a normal return is assumed).  A scheduler is a list of task indices;
running an index advances that task by one slice. -/

/-- Progress of one concurrent `get_token` caller: not yet run (with the
value its prerequest would return), suspended at the await on line 48, or
finished with a result. -/
inductive TaskPhase
  | start (v : Option String)
  | waiting (v : Option String)
  | done (r : GTResult)
deriving DecidableEq

/-- Shared checker state plus the per-task phases and the total number of
`prerequest()` invocations issued so far. -/
structure ConcState where
  shared : TokenState
  tasks : List TaskPhase
  invocations : Nat
deriving DecidableEq

/-- Advance task `i` by one atomic slice (no-op on an out-of-range index
or a finished task). -/
def stepTask (c : ConcState) (i : Nat) : ConcState :=
  match c.tasks.get? i with
  | none => c
  | some ph =>
    match ph with
    | .start v =>
      match c.shared.prerequest_sent with
      | true =>
          { c with tasks := c.tasks.set i (.done (cachedResult c.shared)) }
      | false =>
          { c with tasks := c.tasks.set i (.waiting v),
                   invocations := c.invocations + 1 }
    | .waiting v =>
        { c with shared := ⟨true, v⟩,
                 tasks := c.tasks.set i (.done (cachedResult ⟨true, v⟩)) }
    | .done _ => c

/-- Run a schedule (a list of task indices) from a state. -/
def runSched (c : ConcState) : List Nat → ConcState
  | [] => c
  | i :: rest => runSched (stepTask c i) rest

/-- Two concurrent first-time callers of `get_token` on a freshly
initialised checker, whose prerequest fetches would return `v0` and `v1`
respectively. -/
def twoCallers (v0 v1 : Option String) : ConcState :=
  ⟨initTokenState, [.start v0, .start v1], 0⟩

/-- Number of tasks still in their start phase. -/
def countStart (l : List TaskPhase) : Nat :=
  l.countP (fun ph => match ph with | .start _ => true | _ => false)

/-! ## Theorems -/

/-- C2: every Response constructed by a PlatformChecker response helper
satisfies the invariants (success=false implies available=false and
valid=false; valid=false implies available=false; the
(available, valid, success) triple is one of the four pairwise-distinct
class triples, so the response belongs to exactly one class), and any
Response produced by the dispatcher's failure path satisfies them as well
(that path in fact never completes a construction, since it omits the
required `link` field). -/
theorem response_class_invariants :
    (∀ c : RespCtor, respInvariant (mkResp c)) ∧
    (∀ (p : Platforms) (q : String) (e : PyExn) (r : PlatformResponse),
        handle_caught p q e = .ok (some r) → respInvariant r) := by
  constructor
  · intro c
    cases c with
    | failure p q m => simp [mkResp, response_failure, respInvariant]
    | available p q m => simp [mkResp, response_available, respInvariant]
    | unavailable p q m link =>
        simp [mkResp, response_unavailable, respInvariant]
    | invalid p q m => simp [mkResp, response_invalid, respInvariant]
    | unavailableOrInvalid p q m msgs link =>
        simp only [mkResp]
        unfold response_unavailable_or_invalid
        split
        · simp [response_unavailable, respInvariant]
        · simp [response_invalid, respInvariant]
  · intro p q e r h
    simp [handle_caught, buildPlatformResponse, Except.map] at h

/-- C2 witness: a concrete helper construction satisfies the invariants. -/
theorem response_class_invariants_witness :
    respInvariant (mkResp (RespCtor.unavailableOrInvalid .SNAPCHAT "alice"
      "is already taken" ["is already taken", "is currently unavailable"]
      (some "https://s/alice"))) :=
  response_class_invariants.1 _

/-- C9: a helper-constructed Response carrying a non-None link is always
an Unavailable response (available=false, valid=true, success=true); the
failure, available and invalid helpers always set link to None. -/
theorem link_only_on_unavailable :
    (∀ c : RespCtor, (mkResp c).link ≠ none →
        (mkResp c).available = false ∧ (mkResp c).valid = true ∧
          (mkResp c).success = true) ∧
    (∀ (p : Platforms) (q m : String),
        (response_failure p q m).link = none ∧
        (response_available p q m).link = none ∧
        (response_invalid p q m).link = none) := by
  constructor
  · intro c
    cases c with
    | failure p q m => simp [mkResp, response_failure]
    | available p q m => simp [mkResp, response_available]
    | unavailable p q m link =>
        simp [mkResp, response_unavailable]
    | invalid p q m => simp [mkResp, response_invalid]
    | unavailableOrInvalid p q m msgs link =>
        simp only [mkResp]
        unfold response_unavailable_or_invalid
        split
        · simp [response_unavailable]
        · simp [response_invalid]
  · intro p q m
    simp [response_failure, response_available, response_invalid]

/-- C9 witness: the GitLab-style unavailable response carries its link and
is classified unavailable. -/
theorem link_only_on_unavailable_witness :
    (mkResp (RespCtor.unavailable .GITLAB "alice" "Unavailable"
        (some "https://gitlab.com/alice"))).available = false ∧
    (mkResp (RespCtor.unavailable .GITLAB "alice" "Unavailable"
        (some "https://gitlab.com/alice"))).valid = true ∧
    (mkResp (RespCtor.unavailable .GITLAB "alice" "Unavailable"
        (some "https://gitlab.com/alice"))).success = true :=
  link_only_on_unavailable.1 _ (by decide)

/-- `List.any` only depends on the members of the list, so it is invariant
under permutation. -/
theorem any_perm_invariant {l l' : List String} (f : String → Bool)
    (h : l.Perm l') : l.any f = l'.any f := by
  cases hb : l'.any f with
  | true =>
    rw [List.any_eq_true] at hb ⊢
    obtain ⟨x, hx, hfx⟩ := hb
    exact ⟨x, h.mem_iff.mpr hx, hfx⟩
  | false =>
    rw [List.any_eq_false] at hb ⊢
    intro x hx
    exact hb x (h.mem_iff.mp hx)

/-- C5: the shared classification helper returns the Unavailable response
(available=false, valid=true, success=true) exactly when the message
contains one of the taken-substrings (case-sensitive code-point infix),
and otherwise the Invalid response (available=false, valid=false,
success=true); it is a pure function and its outcome is unchanged under
any permutation of the substring list. -/
theorem classify_unavailable_or_invalid (p : Platforms) (q msg : String)
    (subs subs' : List String) (link : Option String)
    (hperm : subs.Perm subs') :
    ((∃ x ∈ subs, x.toList <:+: msg.toList) →
        response_unavailable_or_invalid p q msg subs link =
          response_unavailable p q msg link) ∧
    ((∀ x ∈ subs, ¬ x.toList <:+: msg.toList) →
        response_unavailable_or_invalid p q msg subs link =
          response_invalid p q msg) ∧
    (response_unavailable_or_invalid p q msg subs link).success = true ∧
    (response_unavailable_or_invalid p q msg subs link).available = false ∧
    ((response_unavailable_or_invalid p q msg subs link).valid = true ↔
        ∃ x ∈ subs, x.toList <:+: msg.toList) ∧
    response_unavailable_or_invalid p q msg subs link =
      response_unavailable_or_invalid p q msg subs' link := by
  have hiff : (subs.any fun x => substrContains msg x) = true ↔
      ∃ x ∈ subs, x.toList <:+: msg.toList := by
    simp [List.any_eq_true, substrContains]
  refine ⟨?_, ?_, ?_, ?_, ?_, ?_⟩
  · intro hex
    unfold response_unavailable_or_invalid
    rw [if_pos (hiff.mpr hex)]
  · intro hall
    unfold response_unavailable_or_invalid
    rw [if_neg]
    intro hc
    obtain ⟨x, hx, hinf⟩ := hiff.mp hc
    exact hall x hx hinf
  · unfold response_unavailable_or_invalid
    split <;> rfl
  · unfold response_unavailable_or_invalid
    split <;> rfl
  · unfold response_unavailable_or_invalid
    constructor
    · intro hv
      by_contra hc
      rw [if_neg (fun h => hc (hiff.mp h))] at hv
      exact absurd hv (by simp [response_invalid])
    · intro hex
      rw [if_pos (hiff.mpr hex)]
      rfl
  · unfold response_unavailable_or_invalid
    rw [any_perm_invariant _ hperm]

/-- C5 witness: a Snapchat-style taken message is classified Unavailable
at a concrete input, and an unrelated message Invalid. -/
theorem classify_unavailable_or_invalid_witness :
    response_unavailable_or_invalid .SNAPCHAT "alice"
        "Sorry, alice is already taken!"
        ["is already taken", "is currently unavailable"] none =
      response_unavailable .SNAPCHAT "alice"
        "Sorry, alice is already taken!" none ∧
    response_unavailable_or_invalid .SNAPCHAT "al"
        "invalid username"
        ["is already taken", "is currently unavailable"] none =
      response_invalid .SNAPCHAT "al" "invalid username" :=
  ⟨(classify_unavailable_or_invalid .SNAPCHAT "alice"
      "Sorry, alice is already taken!"
      ["is already taken", "is currently unavailable"]
      ["is already taken", "is currently unavailable"] none
      (List.Perm.refl _)).1 (by decide),
   (classify_unavailable_or_invalid .SNAPCHAT "al"
      "invalid username"
      ["is already taken", "is currently unavailable"]
      ["is already taken", "is currently unavailable"] none
      (List.Perm.refl _)).2.1 (by decide)⟩

/-- C6: the dispatcher classifies the query once by the EMAIL_REGEX test
(a function of the query string alone, independent of the platform); an
email-shaped query goes to check_email when the platform defines it, a
username-shaped query goes to check_username when the platform defines it,
and in every remaining case the dispatcher returns None rather than a
Response or an error. -/
theorem dispatch_routing (q : String) (p : Platforms) (caps : PlatformCaps)
    (outcome : CheckOutcome) :
    (EMAIL_REGEX_match q = true → caps.has_check_email = true →
        route q caps = .email) ∧
    (EMAIL_REGEX_match q = false → caps.has_check_username = true →
        route q caps = .username) ∧
    (¬(EMAIL_REGEX_match q = true ∧ caps.has_check_email = true) →
      ¬(EMAIL_REGEX_match q = false ∧ caps.has_check_username = true) →
        route q caps = .unsupported ∧ query q p caps outcome = .ok none) ∧
    (∀ r, route q caps ≠ Route.unsupported →
        query q p caps (.ret (some r)) = .ok (some r)) := by
  cases hm : EMAIL_REGEX_match q <;>
    cases he : caps.has_check_email <;>
      cases hu : caps.has_check_username <;>
        simp [route, query, hm, he, hu]

/-- C6 witness: an email-shaped query routes to check_email on Instagram,
a plain username routes to check_username, and an email-shaped query on
Reddit (no check_email) yields None. -/
theorem dispatch_routing_witness :
    route "user@ex.com" (capsOf .INSTAGRAM) = Route.email ∧
    route "plainname" (capsOf .INSTAGRAM) = Route.username ∧
    (route "user@ex.com" (capsOf .REDDIT) = Route.unsupported ∧
      query "user@ex.com" .REDDIT (capsOf .REDDIT)
        (.ret (some (response_available .REDDIT "user@ex.com" "m"))) =
          .ok none) :=
  ⟨(dispatch_routing "user@ex.com" .INSTAGRAM (capsOf .INSTAGRAM)
      (.ret none)).1 (by decide) (by decide),
   (dispatch_routing "plainname" .INSTAGRAM (capsOf .INSTAGRAM)
      (.ret none)).2.1 (by decide) (by decide),
   (dispatch_routing "user@ex.com" .REDDIT (capsOf .REDDIT)
      (.ret (some (response_available .REDDIT "user@ex.com" "m")))).2.2.1
      (by decide) (by decide)⟩

/-- C1 (code bug): when the invoked capability raises a caught exception
(aiohttp.ClientError, KeyError, QueryError) or returns no Response, the
dispatcher does NOT return a Failed Response: the except handler's
construction omits the required `link` field of the frozen dataclass, so
a TypeError is raised and escapes the dispatcher.  Evaluation at the
failing inputs: a network error during a Reddit username check, a None
return from a Firefox email check, and a token error during a Snapchat
username check. -/
theorem dispatcher_failure_path_raises :
    query "alice" Platforms.REDDIT (capsOf Platforms.REDDIT)
      (CheckOutcome.exn (PyExn.clientError "ClientConnectorError"
        "Cannot connect to host reddit.com")) =
      .error (PyExn.typeError
        "__init__() missing 1 required positional argument: 'link'") ∧
    query "user@ex.com" Platforms.FIREFOX (capsOf Platforms.FIREFOX)
      (CheckOutcome.ret none) =
      .error (PyExn.typeError
        "__init__() missing 1 required positional argument: 'link'") ∧
    query "alice" Platforms.SNAPCHAT (capsOf Platforms.SNAPCHAT)
      (CheckOutcome.exn (PyExn.queryError
        "Could not retrieve token. You might be sending too many requests. Use a proxy or wait before trying again.")) =
      .error (PyExn.typeError
        "__init__() missing 1 required positional argument: 'link'") :=
  ⟨rfl, rfl, rfl⟩

/-- A supported route returns the capability's Response unchanged. -/
theorem query_ret_some (q : String) (p : Platforms) (caps : PlatformCaps)
    (r : PlatformResponse) (h : route q caps ≠ Route.unsupported) :
    query q p caps (.ret (some r)) = .ok (some r) := by
  unfold query
  cases hr : route q caps with
  | unsupported => exact absurd hr h
  | email => rfl
  | username => rfl

/-- Gathering a concatenation of two all-succeeding task lists
concatenates their results. -/
theorem gather_append {l1 l2 : List (Except PyExn (Option PlatformResponse))}
    {r1 r2 : List (Option PlatformResponse)}
    (h1 : gather l1 = .ok r1) (h2 : gather l2 = .ok r2) :
    gather (l1 ++ l2) = .ok (r1 ++ r2) := by
  induction l1 generalizing r1 with
  | nil =>
    simp only [gather] at h1
    injection h1 with h1
    subst h1
    simpa using h2
  | cons t ts ih =>
    cases t with
    | error e => simp [gather] at h1
    | ok r =>
      simp only [gather] at h1
      cases hts : gather ts with
      | error e => rw [hts] at h1; exact absurd h1 (by simp)
      | ok rs =>
        rw [hts] at h1
        injection h1 with h1
        subst h1
        simp only [List.cons_append, gather, List.append_eq, ih hts]

/-- Gathering a map of all-succeeding tasks yields the mapped results. -/
theorem gather_map {α : Type} (l : List α)
    (f : α → Except PyExn (Option PlatformResponse))
    (g : α → Option PlatformResponse) (h : ∀ x ∈ l, f x = .ok (g x)) :
    gather (l.map f) = .ok (l.map g) := by
  induction l with
  | nil => rfl
  | cons a as ih =>
    have ha := h a (List.mem_cons_self a as)
    have hrest := ih (fun x hx => h x (List.mem_cons_of_mem _ hx))
    simp only [List.map_cons, ha, gather, hrest]

/-- Dropping the None results of a list of all-Some results is the list of
their values. -/
theorem filterMap_id_map_some {α : Type} (f : α → PlatformResponse)
    (l : List α) : (l.map (fun a => some (f a))).filterMap id = l.map f := by
  induction l with
  | nil => rfl
  | cons a as ih => simp [ih]

/-- Length of the cross-product task list: one entry per pair. -/
theorem flatMap_map_length {α β γ : Type} (l : List α) (l' : List β)
    (f : α → β → γ) :
    (l.flatMap (fun a => l'.map (f a))).length = l.length * l'.length := by
  induction l with
  | nil => simp
  | cons a as ih =>
    simp [List.flatMap_cons, ih, Nat.succ_mul, Nat.add_comm]

/-- C7: execute_queries builds one dispatcher task per (query, platform)
pair of the full cross-product, queries outermost and platforms innermost
in input order, and returns the non-None results in submission order; when
every pair is supported and every capability call returns a Response, the
result is exactly the M×N responses of the cross-product, in order, with
no drops and no duplicates; the synchronous wrapper returns the same
list. -/
theorem execute_queries_cross_product
    (queries : List String) (platforms : List Platforms)
    (caps : Platforms → PlatformCaps)
    (outcomeOf : String → Platforms → CheckOutcome)
    (respOf : String → Platforms → PlatformResponse)
    (h : ∀ q ∈ queries, ∀ p ∈ platforms,
        route q (caps p) ≠ Route.unsupported ∧
        outcomeOf q p = CheckOutcome.ret (some (respOf q p))) :
    execute_queries queries platforms caps outcomeOf =
      .ok (queries.flatMap (fun q => platforms.map (fun p => respOf q p))) ∧
    (queries.flatMap (fun q => platforms.map (fun p => respOf q p))).length =
      queries.length * platforms.length ∧
    sync_execute_queries queries platforms caps outcomeOf =
      execute_queries queries platforms caps outcomeOf := by
  refine ⟨?_, ?_, rfl⟩
  · have key : ∀ qs : List String,
        (∀ q ∈ qs, ∀ p ∈ platforms,
            route q (caps p) ≠ Route.unsupported ∧
            outcomeOf q p = CheckOutcome.ret (some (respOf q p))) →
        gather (qs.flatMap (fun q => platforms.map
            (fun p => query q p (caps p) (outcomeOf q p)))) =
          .ok (qs.flatMap (fun q => platforms.map
            (fun p => some (respOf q p)))) := by
      intro qs hqs
      induction qs with
      | nil => rfl
      | cons q rest ih =>
        rw [List.flatMap_cons, List.flatMap_cons]
        refine gather_append (gather_map platforms _ _ ?_)
          (ih (fun q' hq' => hqs q' (List.mem_cons_of_mem _ hq')))
        intro p hp
        have hqp := hqs q (List.mem_cons_self q rest) p hp
        rw [hqp.2]
        exact query_ret_some q p (caps p) _ hqp.1
    have hfm : (queries.flatMap (fun q => platforms.map
        (fun p => some (respOf q p)))).filterMap id =
        queries.flatMap (fun q => platforms.map (fun p => respOf q p)) := by
      clear h
      induction queries with
      | nil => rfl
      | cons q rest ih =>
        rw [List.flatMap_cons, List.flatMap_cons, List.filterMap_append, ih]
        congr 1
        exact filterMap_id_map_some _ _
    unfold execute_queries
    rw [key queries h]
    exact congrArg Except.ok hfm
  · exact flatMap_map_length queries platforms respOf

/-- C7 witness: two usernames on two username-supporting platforms yield
the four responses of the cross-product in submission order. -/
theorem execute_queries_cross_product_witness :
    execute_queries ["alice", "bob"] [.REDDIT, .TWITTER] capsOf
        (fun q p => .ret (some (response_available p q "Available"))) =
      .ok (["alice", "bob"].flatMap (fun q => [Platforms.REDDIT,
        Platforms.TWITTER].map (fun p => response_available p q "Available"))) :=
  (execute_queries_cross_product ["alice", "bob"] [.REDDIT, .TWITTER]
    capsOf (fun q p => .ret (some (response_available p q "Available")))
    (fun q p => response_available p q "Available") (by decide)).1

/-- C8 (code bug): configuration errors (empty query set, unknown platform
name) are indeed raised to the caller by the pre-I/O configuration phase,
and a valid configuration passes it; but a per-task failure DOES abort the
batch: with the valid configuration (["alice"], [REDDIT]) and a network
error in the one task, execute_queries propagates the failure path's
TypeError (missing `link` argument) instead of returning a one-element
list containing a Failed Response. -/
theorem config_errors_and_batch_abort :
    cli_config [] [] [] =
      .error "You must specify either at least one query or an input file" ∧
    cli_config ["alice"] [] ["facebook"] =
      .error "facebook is not a valid platform" ∧
    cli_config ["alice"] [] ["reddit"] =
      .ok (["alice"], [Platforms.REDDIT]) ∧
    execute_queries ["alice"] [Platforms.REDDIT] capsOf
        (fun _ _ => .exn (.clientError "ClientConnectorError"
          "Cannot connect to host reddit.com")) =
      .error (PyExn.typeError
        "__init__() missing 1 required positional argument: 'link'") :=
  ⟨rfl, rfl, rfl, rfl⟩

/-- Once `prerequest_sent` is true, every further call replays the cached
outcome without invoking prerequest. -/
theorem runCalls_sent (s : TokenState) (os : List PrereqOutcome)
    (h : s.prerequest_sent = true) :
    runCalls s os = (os.map (fun _ => cachedResult s), s, 0) := by
  induction os with
  | nil => rfl
  | cons o rest ih =>
    simp [runCalls, get_token, h, ih]

/-- C3: get-or-fetch-once.  Starting from the freshly initialised state,
a first `get_token` call whose prerequest returns normally invokes
prerequest, and over the whole call sequence prerequest is invoked exactly
once regardless of how many calls follow; if the fetched token was None,
the first and every subsequent call raise the token error, otherwise every
call returns the identical cached token. -/
theorem get_token_fetch_once (t : Option String) (os : List PrereqOutcome) :
    (runCalls initTokenState (PrereqOutcome.ret t :: os)).2.2 = 1 ∧
    (t = none → ∀ r ∈ (runCalls initTokenState (PrereqOutcome.ret t :: os)).1,
        r = GTResult.tokenError) ∧
    (∀ v, t = some v →
        ∀ r ∈ (runCalls initTokenState (PrereqOutcome.ret t :: os)).1,
          r = GTResult.ok v) := by
  have hrun : runCalls initTokenState (PrereqOutcome.ret t :: os) =
      (cachedResult ⟨true, t⟩ :: os.map (fun _ => cachedResult ⟨true, t⟩),
       ⟨true, t⟩, 1) := by
    simp [runCalls, get_token, initTokenState, runCalls_sent ⟨true, t⟩ os rfl]
  rw [hrun]
  refine ⟨rfl, ?_, ?_⟩
  · rintro rfl r hr
    rcases List.mem_cons.mp hr with h1 | h2
    · simpa [cachedResult] using h1
    · obtain ⟨_, _, h3⟩ := List.mem_map.mp h2
      simpa [cachedResult] using h3.symm
  · rintro v rfl r hr
    rcases List.mem_cons.mp hr with h1 | h2
    · simpa [cachedResult] using h1
    · obtain ⟨_, _, h3⟩ := List.mem_map.mp h2
      simpa [cachedResult] using h3.symm

/-- C3 witness: a successful fetch followed by two more calls — one
invocation in total, all three calls returning the cached token. -/
theorem get_token_fetch_once_witness :
    (runCalls initTokenState [PrereqOutcome.ret (some "tok"),
        PrereqOutcome.ret none, PrereqOutcome.raise]).2.2 = 1 ∧
    (runCalls initTokenState [PrereqOutcome.ret (some "tok"),
        PrereqOutcome.ret none, PrereqOutcome.raise]).1 =
      [GTResult.ok "tok", GTResult.ok "tok", GTResult.ok "tok"] :=
  ⟨(get_token_fetch_once (some "tok")
      [PrereqOutcome.ret none, PrereqOutcome.raise]).1, rfl⟩

/-- C10: if prerequest raises during `get_token` on a not-yet-resolved
checker, the exception propagates and the cache state is left unchanged
(prerequest_sent stays false, token unchanged), so a later call invokes
prerequest again; whereas a normal return — including a returned None —
is recorded as the resolved state. -/
theorem get_token_raise_not_cached (s : TokenState) (o : PrereqOutcome)
    (t : Option String) (h : s.prerequest_sent = false) :
    get_token s PrereqOutcome.raise = (GTResult.prereqRaised, s, true) ∧
    (get_token s o).2.2 = true ∧
    (get_token s (PrereqOutcome.ret t)).2.1 = ⟨true, t⟩ := by
  refine ⟨?_, ?_, ?_⟩
  · simp [get_token, h]
  · cases o <;> simp [get_token, h]
  · simp [get_token, h]

/-- C10 witness: prerequest raising on the fresh state leaves the state
unchanged, the following call invokes prerequest again, and a normal None
return is recorded. -/
theorem get_token_raise_not_cached_witness :
    get_token initTokenState PrereqOutcome.raise =
      (GTResult.prereqRaised, initTokenState, true) ∧
    (get_token initTokenState PrereqOutcome.raise).2.2 = true ∧
    (get_token initTokenState (PrereqOutcome.ret none)).2.1 = ⟨true, none⟩ :=
  get_token_raise_not_cached initTokenState PrereqOutcome.raise none
    (by decide)

/-- C4 counterexample: two concurrent first-time callers of `get_token` on
one freshly initialised checker, interleaved at the await point
(schedule task0-slice1, task1-slice1, task0-slice2, task1-slice2), issue
TWO prerequest invocations — both tasks sit suspended inside the
"not yet requested" branch at once, so no mutual exclusion protects it —
and the two callers observe different resolved values. -/
theorem token_single_flight_counterexample :
    (runSched (twoCallers (some "tokA") (some "tokB")) [0, 1]).tasks =
      [TaskPhase.waiting (some "tokA"), TaskPhase.waiting (some "tokB")] ∧
    (runSched (twoCallers (some "tokA") (some "tokB"))
        [0, 1, 0, 1]).invocations = 2 ∧
    (runSched (twoCallers (some "tokA") (some "tokB")) [0, 1, 0, 1]).tasks =
      [TaskPhase.done (GTResult.ok "tokA"),
       TaskPhase.done (GTResult.ok "tokB")] :=
  ⟨rfl, rfl, rfl⟩

/-- Tasks still in their start slice. -/
def isStartPhase : TaskPhase → Bool
  | .start _ => true
  | _ => false

/-- Replacing the element at a valid index shifts the `countP` by the
predicate values of the old and new elements. -/
theorem countP_set (l : List TaskPhase) (i : Nat) (a b : TaskPhase)
    (h : l.get? i = some a) :
    (l.set i b).countP isStartPhase +
        (if isStartPhase a then 1 else 0) =
      l.countP isStartPhase + (if isStartPhase b then 1 else 0) := by
  induction l generalizing i with
  | nil => simp at h
  | cons x xs ih =>
    cases i with
    | zero =>
      simp only [List.get?] at h
      injection h with h
      subst h
      simp only [List.set, List.countP_cons]
      omega
    | succ n =>
      simp only [List.get?] at h
      simp only [List.set, List.countP_cons]
      have := ih n h
      omega

/-- One scheduler step never increases invocations plus the number of
tasks still able to enter the fetch branch. -/
theorem stepTask_measure (c : ConcState) (i : Nat) :
    (stepTask c i).invocations +
        ((stepTask c i).tasks.countP isStartPhase) ≤
      c.invocations + (c.tasks.countP isStartPhase) := by
  unfold stepTask
  cases hg : c.tasks.get? i with
  | none => exact Nat.le_refl _
  | some ph =>
    cases ph with
    | start v =>
      cases hs : c.shared.prerequest_sent with
      | true =>
        have := countP_set c.tasks i _ (.done (cachedResult c.shared)) hg
        simp [isStartPhase] at this
        simp only []
        omega
      | false =>
        have := countP_set c.tasks i _ (.waiting v) hg
        simp [isStartPhase] at this
        simp only []
        omega
    | waiting v =>
      have := countP_set c.tasks i _ (.done (cachedResult ⟨true, v⟩)) hg
      simp [isStartPhase] at this
      simp only []
      omega
    | done r => exact Nat.le_refl _

/-- Running any schedule never increases invocations plus remaining
start-slice tasks. -/
theorem runSched_measure (sched : List Nat) (c : ConcState) :
    (runSched c sched).invocations +
        ((runSched c sched).tasks.countP isStartPhase) ≤
      c.invocations + (c.tasks.countP isStartPhase) := by
  induction sched generalizing c with
  | nil => exact Nat.le_refl _
  | cons i rest ih =>
    exact Nat.le_trans (ih (stepTask c i)) (stepTask_measure c i)

/-- C4 amended: there is no lock or single-flight primitive around the
"not yet requested" transition; each concurrent first caller that reads
the cache before any fetch completes starts its own prerequest invocation
(so two interleaved first callers issue two invocations and can observe
different values), a caller sequenced after a completed fetch is served
the cached value without a new invocation, and no schedule ever issues
more invocations than there are callers (here two). -/
theorem token_no_single_flight (v0 v1 : String) (sched : List Nat) :
    (runSched (twoCallers (some v0) (some v1)) [0, 1, 0, 1]).invocations =
      2 ∧
    (runSched (twoCallers (some v0) (some v1)) [0, 1, 0, 1]).tasks =
      [TaskPhase.done (GTResult.ok v0), TaskPhase.done (GTResult.ok v1)] ∧
    (runSched (twoCallers (some v0) (some v1)) [0, 0, 1]).invocations = 1 ∧
    (runSched (twoCallers (some v0) (some v1)) [0, 0, 1]).tasks =
      [TaskPhase.done (GTResult.ok v0), TaskPhase.done (GTResult.ok v0)] ∧
    (runSched (twoCallers (some v0) (some v1)) sched).invocations ≤ 2 := by
  refine ⟨rfl, rfl, rfl, rfl, ?_⟩
  have h := runSched_measure sched (twoCallers (some v0) (some v1))
  have h2 : (twoCallers (some v0) (some v1)).invocations +
      ((twoCallers (some v0) (some v1)).tasks.countP isStartPhase) = 2 := rfl
  omega

/-- C4 amended witness: the interleaved and sequential schedules at
concrete token values. -/
theorem token_no_single_flight_witness :
    (runSched (twoCallers (some "a") (some "b")) [0, 1, 0, 1]).invocations =
      2 ∧
    (runSched (twoCallers (some "a") (some "b")) [0, 1, 0, 1]).tasks =
      [TaskPhase.done (GTResult.ok "a"), TaskPhase.done (GTResult.ok "b")] ∧
    (runSched (twoCallers (some "a") (some "b")) [0, 0, 1]).invocations =
      1 ∧
    (runSched (twoCallers (some "a") (some "b")) [0, 0, 1]).tasks =
      [TaskPhase.done (GTResult.ok "a"), TaskPhase.done (GTResult.ok "a")] ∧
    (runSched (twoCallers (some "a") (some "b")) [1, 1, 0, 0]).invocations ≤
      2 :=
  token_no_single_flight "a" "b" [1, 1, 0, 0]

end Socialscan
